import Mathlib

/-!
Shallow embedding of the DXF quantity-extraction pipeline (src/dfx.py):
the geometry helpers `calculate_distance`, `calculate_volume`,
`calculate_polygon_area`, the classifier `extract_entities`, and the
quantity engine `calculate_quantities`.

Numbers: coordinates are modelled as rationals (exact arithmetic in place
of floats); derived quantities live in ℝ because `calculate_distance`
takes a square root and the CIRCLE branch multiplies by π.
A Python exception escaping `calculate_quantities` (the TypeError raised
by `None ** 2` on a radius-less CIRCLE) is modelled as `Except.error ()`:
an error anywhere makes the whole batch result an error, exactly as an
uncaught exception discards all partial results.
-/

/-- A drawing point: an (x, y) pair with an optional third coordinate,
mirroring the 2-or-3-tuples the Python code indexes with `[0]`, `[1]`
and, guarded by a length test, `[2]`. -/
structure Point where
  x : ℚ
  y : ℚ
  z : Option ℚ
deriving Repr, DecidableEq, Inhabited

/-- A raw document entity as `extract_entities` probes it: a dxftype tag,
a layer, and the optional per-type fields read with `getattr(..., default)`.
The field `end_` stands for the raw attribute `end` (a Lean keyword). -/
structure RawEntity where
  dxftype : String
  layer : String
  start : Option Point
  end_ : Option Point
  radius : Option ℚ
  vertices : List Point
  closed : Bool
  points : Option (List Point)
deriving Repr, DecidableEq, Inhabited

/-- The normalized dictionary built by `extract_entities` for each
whitelisted entity. -/
structure NormalizedEntity where
  type : String
  layer : String
  start_point : Option Point
  end_point : Option Point
  radius : Option ℚ
  vertices : List Point
  is_closed : Bool
  points : Option (List Point)
deriving Repr, DecidableEq, Inhabited

/-- One row of `calculate_quantities` output:
`{"type": ..., "layer": ..., "length": ..., "area": ..., "volume": ...}`. -/
structure QuantityRecord where
  type : String
  layer : String
  length : Option ℝ
  area : Option ℝ
  volume : Option ℝ

/-- Model of `calculate_distance(point1, point2)` from src/dfx.py: 0 if either
point is `None`, otherwise `sqrt((x2-x1)**2 + (y2-y1)**2)` over the first
two coordinates only. -/
noncomputable def calculate_distance (point1 point2 : Option Point) : ℝ :=
  match point1, point2 with
  | some p1, some p2 =>
      Real.sqrt (((p2.x : ℝ) - (p1.x : ℝ)) ^ 2 + ((p2.y : ℝ) - (p1.y : ℝ)) ^ 2)
  | _, _ => 0

/-- Model of `calculate_volume(points)` from src/dfx.py: 0 for fewer than 3 points;
otherwise `base_area * height` with `base_area = 0` (placeholder) and
`height = points[0][2] if len(points[0]) > 2 else 0`. -/
def calculate_volume (points : List Point) : ℚ :=
  if points.length < 3 then 0
  else
    let base_area : ℚ := 0
    let height : ℚ := ((points.getD 0 default).z).getD 0
    base_area * height

/-- The loop body of the Shoelace accumulation in
`calculate_polygon_area`: `x1*y2 - x2*y1`. -/
def edgeCross (a b : Point) : ℚ :=
  a.x * b.y - b.x * a.y

/-- The Shoelace accumulation loop of `calculate_polygon_area`:
`for i in range(n): area += x1*y2 - x2*y1` with the cyclic successor
index `(i + 1) % n`. -/
def shoelace (vertices : List Point) : ℚ :=
  (List.range vertices.length).foldl
    (fun area i =>
      area + edgeCross (vertices.getD i default)
        (vertices.getD ((i + 1) % vertices.length) default)) 0

/-- Model of `calculate_polygon_area(vertices)` from src/dfx.py: 0 for fewer than
3 vertices, otherwise `abs(area) / 2` of the Shoelace sum. -/
def calculate_polygon_area (vertices : List Point) : ℚ :=
  if vertices.length < 3 then 0
  else |shoelace vertices| / 2

/-- The entity-kind whitelist tested by `extract_entities`. -/
def entity_whitelist : List String :=
  ["LINE", "CIRCLE", "LWPOLYLINE", "ARC", "3DSOLID", "POLYFACE"]

/-- The dictionary `extract_entities` appends for one whitelisted raw
entity. -/
def normalize_entity (e : RawEntity) : NormalizedEntity :=
  { type := e.dxftype
    layer := e.layer
    start_point := e.start
    end_point := e.end_
    radius := e.radius
    vertices := e.vertices
    is_closed := e.closed
    points := e.points }

/-- Model of `extract_entities(doc)` from src/dfx.py, with the document's
modelspace iteration given as the input list: keep exactly the entities
whose dxftype is whitelisted, in order, normalizing each. -/
def extract_entities (doc : List RawEntity) : List NormalizedEntity :=
  (doc.filter fun e => entity_whitelist.contains e.dxftype).map normalize_entity

/-- Truthiness of `entity["points"]` in Python: a non-`None`, non-empty
list. -/
def hasPoints (e : NormalizedEntity) : Bool :=
  match e.points with
  | some (_ :: _) => true
  | _ => false

/-- The per-entity dispatch of the `calculate_quantities` loop body: the
`if/elif` chain on `entity["type"]`. `Except.error ()` models the
TypeError raised by `entity["radius"]**2` when the radius is `None`;
`Except.ok none` is a loop iteration that appends nothing. -/
noncomputable def dispatch_entity (e : NormalizedEntity) :
    Except Unit (Option QuantityRecord) :=
  if e.type = "LINE" then
    Except.ok (some
      { type := "LINE", layer := e.layer
        length := some (calculate_distance e.start_point e.end_point)
        area := none, volume := none })
  else if e.type = "CIRCLE" then
    match e.radius with
    | none => Except.error ()
    | some r =>
        Except.ok (some
          { type := "CIRCLE", layer := e.layer, length := none
            area := some (Real.pi * ((r : ℝ)) ^ 2), volume := none })
  else if e.type = "LWPOLYLINE" ∧ e.vertices ≠ [] then
    if e.is_closed then
      Except.ok (some
        { type := "LWPOLYLINE", layer := e.layer, length := none
          area := some ((calculate_polygon_area e.vertices : ℚ) : ℝ)
          volume := none })
    else
      Except.ok (some
        { type := "LWPOLYLINE", layer := e.layer
          length := none, area := none, volume := none })
  else if e.type = "3DSOLID" ∧ hasPoints e = true then
    Except.ok (some
      { type := "3DSOLID", layer := e.layer, length := none, area := none
        volume := some ((calculate_volume (e.points.getD []) : ℚ) : ℝ) })
  else if e.type = "POLYFACE" ∧ hasPoints e = true then
    Except.ok (some
      { type := "POLYFACE", layer := e.layer, length := none, area := none
        volume := some ((calculate_volume (e.points.getD []) : ℚ) : ℝ) })
  else
    Except.ok none

/-- Model of `calculate_quantities(entities)` from src/dfx.py: the loop over the
entity list, appending each produced record in order; a raising iteration
(CIRCLE with absent radius) aborts the whole call. -/
noncomputable def calculate_quantities :
    List NormalizedEntity → Except Unit (List QuantityRecord)
  | [] => Except.ok []
  | e :: es =>
    match dispatch_entity e with
    | Except.error u => Except.error u
    | Except.ok none => calculate_quantities es
    | Except.ok (some r) =>
      match calculate_quantities es with
      | Except.error u => Except.error u
      | Except.ok rs => Except.ok (r :: rs)

/-- Claim C2: `calculate_volume` returns 0 on every list of points — by
the guard below 3 points, and because the placeholder `base_area = 0`
makes `base_area * height = 0` otherwise. -/
theorem calculate_volume_always_zero (points : List Point) :
    calculate_volume points = 0 := by
  unfold calculate_volume
  split
  · rfl
  · simp

/-- Claim C7: `calculate_distance` returns 0 whenever either argument is
absent (never raising), and on two present points returns the Euclidean
distance built from the first two coordinates only — in particular the
third coordinate of either point never influences the result. -/
theorem calculate_distance_spec :
    (∀ p, calculate_distance none p = 0) ∧
    (∀ p, calculate_distance p none = 0) ∧
    (∀ p1 p2 : Point, calculate_distance (some p1) (some p2) =
      Real.sqrt (((p2.x : ℝ) - (p1.x : ℝ)) ^ 2 + ((p2.y : ℝ) - (p1.y : ℝ)) ^ 2)) ∧
    (∀ (p1 p2 : Point) (z1 z2 : Option ℚ),
      calculate_distance (some { p1 with z := z1 }) (some { p2 with z := z2 }) =
        calculate_distance (some p1) (some p2)) := by
  refine ⟨fun p => rfl, fun p => ?_, fun p1 p2 => rfl, fun p1 p2 z1 z2 => rfl⟩
  cases p <;> rfl

/-- Unfolding equation for one loop iteration of `calculate_quantities`. -/
theorem calculate_quantities_cons (e : NormalizedEntity) (es : List NormalizedEntity) :
    calculate_quantities (e :: es) =
      match dispatch_entity e with
      | Except.error u => Except.error u
      | Except.ok none => calculate_quantities es
      | Except.ok (some r) =>
        match calculate_quantities es with
        | Except.error u => Except.error u
        | Except.ok rs => Except.ok (r :: rs) := rfl

/-- A CIRCLE entity with absent radius makes the dispatch raise. -/
theorem dispatch_entity_circle_none (e : NormalizedEntity)
    (h1 : e.type = "CIRCLE") (h2 : e.radius = none) :
    dispatch_entity e = Except.error () := by
  unfold dispatch_entity
  simp [h1, h2]

/-- Every entity other than a radius-less CIRCLE dispatches without
raising. -/
theorem dispatch_entity_isOk (e : NormalizedEntity)
    (h : e.type = "CIRCLE" → e.radius ≠ none) :
    ∃ o, dispatch_entity e = Except.ok o := by
  unfold dispatch_entity
  split_ifs with h1 h2 h3 h4 h5 h6
  · exact ⟨_, rfl⟩
  · cases hr : e.radius with
    | none => exact absurd hr (h h2)
    | some r => exact ⟨_, rfl⟩
  · exact ⟨_, rfl⟩
  · exact ⟨_, rfl⟩
  · exact ⟨_, rfl⟩
  · exact ⟨_, rfl⟩
  · exact ⟨_, rfl⟩

/-- A CIRCLE entity whose radius is absent, as `extract_entities` would
normalize it. -/
def circNoRadius : NormalizedEntity :=
  ⟨"CIRCLE", "0", none, none, none, [], false, none⟩

/-- A LINE entity from (0,0) to (3,4). -/
def line34 : NormalizedEntity :=
  ⟨"LINE", "0", some ⟨0, 0, none⟩, some ⟨3, 4, none⟩, none, [], false, none⟩

/-- Claim C1 counterexample: a batch holding a radius-less CIRCLE
followed by a well-formed LINE aborts whole — the raised error discards
the batch, so the LINE after the CIRCLE is never turned into a record,
contradicting the claim that one entity lacking a field never terminates
processing of the remaining entities. -/
theorem circle_missing_radius_aborts_batch :
    calculate_quantities [circNoRadius, line34] = Except.error () := by
  rw [calculate_quantities_cons, dispatch_entity_circle_none circNoRadius rfl rfl]

/-- Claim C1 (amended): `calculate_quantities` completes on a batch —
aborting for no entity that lacks a geometric field — exactly when no
CIRCLE entity in it has an absent radius; a radius-less CIRCLE raises and
kills the whole batch, every other missing field is tolerated. -/
theorem calculate_quantities_ok_iff (es : List NormalizedEntity) :
    (∃ rs, calculate_quantities es = Except.ok rs) ↔
      (∀ e ∈ es, e.type = "CIRCLE" → e.radius ≠ none) := by
  induction es with
  | nil => simp [calculate_quantities]
  | cons e es ih =>
    constructor
    · rintro ⟨rs, hrs⟩
      rw [calculate_quantities_cons] at hrs
      cases hd : dispatch_entity e with
      | error u => rw [hd] at hrs; simp at hrs
      | ok o =>
        have hes : ∃ rs', calculate_quantities es = Except.ok rs' := by
          cases o with
          | none => rw [hd] at hrs; exact ⟨rs, hrs⟩
          | some r =>
            rw [hd] at hrs
            cases hq : calculate_quantities es with
            | error u => rw [hq] at hrs; simp at hrs
            | ok rs' => exact ⟨rs', rfl⟩
        intro f hf
        rcases List.mem_cons.mp hf with rfl | hf'
        · intro hc hr
          rw [dispatch_entity_circle_none f hc hr] at hd
          simp at hd
        · exact ih.mp hes f hf'
    · intro h
      obtain ⟨o, ho⟩ := dispatch_entity_isOk e (h e (List.mem_cons_self e es))
      obtain ⟨rs, hrs⟩ := ih.mpr (fun f hf => h f (List.mem_cons_of_mem _ hf))
      rw [calculate_quantities_cons, ho]
      cases o with
      | none => exact ⟨rs, hrs⟩
      | some r => rw [hrs]; exact ⟨r :: rs, rfl⟩

/-- Claim C1 amended-claim witness: a batch of one well-formed LINE
completes. -/
theorem calculate_quantities_ok_iff_witness :
    ∃ rs, calculate_quantities [line34] = Except.ok rs :=
  (calculate_quantities_ok_iff [line34]).mpr (by decide)

/-- A raw ARC entity fixture. -/
def rawArc : RawEntity :=
  ⟨"ARC", "0", none, none, none, [], false, none⟩

/-- An ARC entity as normalized by extraction. -/
def arcEnt : NormalizedEntity :=
  ⟨"ARC", "0", none, none, none, [], false, none⟩

/-- Claim C3: ARC is whitelisted and extraction normalizes a raw ARC into
one record, yet the quantity dispatch has no ARC branch, so an ARC entity
contributes no quantity record wherever it sits in the batch. -/
theorem arc_classified_but_no_record :
    ("ARC" ∈ entity_whitelist) ∧
    (∀ raw : RawEntity, raw.dxftype = "ARC" →
      extract_entities [raw] = [normalize_entity raw]) ∧
    (∀ (e : NormalizedEntity) (es : List NormalizedEntity), e.type = "ARC" →
      calculate_quantities (e :: es) = calculate_quantities es) := by
  refine ⟨by decide, fun raw h => ?_, fun e es h => ?_⟩
  · have hc : decide (raw.dxftype ∈ entity_whitelist) = true := by
      rw [h]; decide
    simp [extract_entities, List.filter, hc]
  · have hd : dispatch_entity e = Except.ok none := by
      unfold dispatch_entity
      simp [h, hasPoints]
    rw [calculate_quantities_cons, hd]

/-- Claim C3 witness: the concrete ARC fixtures. -/
theorem arc_classified_but_no_record_witness :
    ("ARC" ∈ entity_whitelist) ∧
    extract_entities [rawArc] = [normalize_entity rawArc] ∧
    calculate_quantities [arcEnt] = calculate_quantities [] :=
  ⟨arc_classified_but_no_record.1,
   arc_classified_but_no_record.2.1 rawArc rfl,
   arc_classified_but_no_record.2.2 arcEnt [] rfl⟩

/-- Claim C4: a CIRCLE entity with present radius `r` contributes exactly
one record — area `π * r²`, length and volume absent — in front of
whatever the rest of the batch produces. -/
theorem circle_present_radius_record (e : NormalizedEntity) (r : ℚ)
    (es : List NormalizedEntity)
    (h1 : e.type = "CIRCLE") (h2 : e.radius = some r) :
    calculate_quantities (e :: es) =
      Except.map (fun rs =>
        ({ type := "CIRCLE", layer := e.layer, length := none
           area := some (Real.pi * ((r : ℝ)) ^ 2), volume := none } :
          QuantityRecord) :: rs)
        (calculate_quantities es) := by
  have hd : dispatch_entity e = Except.ok (some
      { type := "CIRCLE", layer := e.layer, length := none
        area := some (Real.pi * ((r : ℝ)) ^ 2), volume := none }) := by
    unfold dispatch_entity
    simp [h1, h2]
  rw [calculate_quantities_cons, hd]
  cases hq : calculate_quantities es <;> rfl

/-- A CIRCLE entity of radius 2. -/
def circ2 : NormalizedEntity :=
  ⟨"CIRCLE", "0", none, none, some 2, [], false, none⟩

/-- Claim C4 witness: the radius-2 CIRCLE yields the single record with
area `π * 2²`. -/
theorem circle_present_radius_record_witness :
    calculate_quantities [circ2] =
      Except.ok [{ type := "CIRCLE", layer := "0", length := none
                   area := some (Real.pi * (((2 : ℚ) : ℝ)) ^ 2), volume := none }] := by
  have h := circle_present_radius_record circ2 2 [] rfl rfl
  simpa [calculate_quantities, Except.map, circ2] using h

/-- Claim C6: an open (`is_closed = false`) LWPOLYLINE with non-empty
vertices contributes exactly one record with length, area and volume all
absent — no segment-length accumulation happens. -/
theorem open_polyline_all_absent_record (e : NormalizedEntity)
    (es : List NormalizedEntity)
    (h1 : e.type = "LWPOLYLINE") (h2 : e.vertices ≠ [])
    (h3 : e.is_closed = false) :
    calculate_quantities (e :: es) =
      Except.map (fun rs =>
        ({ type := "LWPOLYLINE", layer := e.layer
           length := none, area := none, volume := none } :
          QuantityRecord) :: rs)
        (calculate_quantities es) := by
  have hd : dispatch_entity e = Except.ok (some
      { type := "LWPOLYLINE", layer := e.layer
        length := none, area := none, volume := none }) := by
    unfold dispatch_entity
    simp [h1, h2, h3]
  rw [calculate_quantities_cons, hd]
  cases hq : calculate_quantities es <;> rfl

/-- An open LWPOLYLINE with three vertices. -/
def openPoly : NormalizedEntity :=
  ⟨"LWPOLYLINE", "0", none, none, none,
    [⟨0, 0, none⟩, ⟨1, 0, none⟩, ⟨1, 1, none⟩], false, none⟩

/-- Claim C6 witness: the concrete open polyline yields one all-absent
record. -/
theorem open_polyline_all_absent_record_witness :
    calculate_quantities [openPoly] =
      Except.ok [{ type := "LWPOLYLINE", layer := "0"
                   length := none, area := none, volume := none }] := by
  have h := open_polyline_all_absent_record openPoly []
    rfl (by decide) rfl
  simpa [calculate_quantities, Except.map, openPoly] using h

/-- Claim C8: when the batch completes, the record list is no longer than
the entity list, and it is exactly the in-order selection of the records
the per-entity dispatch produces — so records keep the relative order of
the entities that produced them. -/
theorem quantities_ordered_selection (es : List NormalizedEntity)
    (rs : List QuantityRecord)
    (h : calculate_quantities es = Except.ok rs) :
    rs.length ≤ es.length ∧
    rs = es.filterMap (fun e =>
      match dispatch_entity e with
      | Except.ok o => o
      | Except.error _ => none) := by
  induction es generalizing rs with
  | nil =>
    simp [calculate_quantities] at h
    subst h
    simp
  | cons e es ih =>
    rw [calculate_quantities_cons] at h
    cases hd : dispatch_entity e with
    | error u => rw [hd] at h; simp at h
    | ok o =>
      rw [hd] at h
      cases o with
      | none =>
        obtain ⟨h1, h2⟩ := ih rs h
        exact ⟨h1.trans (Nat.le_succ _), by simp [List.filterMap_cons, hd, h2]⟩
      | some r =>
        cases hq : calculate_quantities es with
        | error u => rw [hq] at h; simp at h
        | ok rs' =>
          rw [hq] at h
          have hrs : r :: rs' = rs := by simpa using h
          subst hrs
          obtain ⟨h1, h2⟩ := ih rs' hq
          exact ⟨Nat.succ_le_succ h1, by simp [List.filterMap_cons, hd, h2]⟩

/-- Claim C8 witness: an ARC (skipped) followed by an open LWPOLYLINE
(kept) — one record, order preserved. -/
theorem quantities_ordered_selection_witness :
    ([({ type := "LWPOLYLINE", layer := "0"
         length := none, area := none, volume := none } : QuantityRecord)]).length ≤
      ([arcEnt, openPoly]).length ∧
    [({ type := "LWPOLYLINE", layer := "0"
        length := none, area := none, volume := none } : QuantityRecord)] =
      [arcEnt, openPoly].filterMap (fun e =>
        match dispatch_entity e with
        | Except.ok o => o
        | Except.error _ => none) :=
  quantities_ordered_selection [arcEnt, openPoly] _ (by rfl)

/-- Any record the dispatch emits carries its producing branch's type tag
and leaves the two fields foreign to that type absent. -/
theorem dispatch_record_shape (e : NormalizedEntity) (r : QuantityRecord)
    (hd : dispatch_entity e = Except.ok (some r)) :
    (r.type = "LINE" ∧ r.area = none ∧ r.volume = none) ∨
    (r.type = "CIRCLE" ∧ r.length = none ∧ r.volume = none) ∨
    (r.type = "LWPOLYLINE" ∧ r.length = none ∧ r.volume = none) ∨
    ((r.type = "3DSOLID" ∨ r.type = "POLYFACE") ∧
      r.length = none ∧ r.area = none) := by
  unfold dispatch_entity at hd
  split_ifs at hd with h1 h2 h3 h4 h5 h6
  · simp only [Except.ok.injEq, Option.some.injEq] at hd
    subst hd
    exact Or.inl ⟨rfl, rfl, rfl⟩
  · cases hr : e.radius with
    | none => rw [hr] at hd; simp at hd
    | some rad =>
      rw [hr] at hd
      simp only [Except.ok.injEq, Option.some.injEq] at hd
      subst hd
      exact Or.inr (Or.inl ⟨rfl, rfl, rfl⟩)
  · simp only [Except.ok.injEq, Option.some.injEq] at hd
    subst hd
    exact Or.inr (Or.inr (Or.inl ⟨rfl, rfl, rfl⟩))
  · simp only [Except.ok.injEq, Option.some.injEq] at hd
    subst hd
    exact Or.inr (Or.inr (Or.inl ⟨rfl, rfl, rfl⟩))
  · simp only [Except.ok.injEq, Option.some.injEq] at hd
    subst hd
    exact Or.inr (Or.inr (Or.inr ⟨Or.inl rfl, rfl, rfl⟩))
  · simp only [Except.ok.injEq, Option.some.injEq] at hd
    subst hd
    exact Or.inr (Or.inr (Or.inr ⟨Or.inr rfl, rfl, rfl⟩))
  · simp at hd

/-- Claim C9: every record a completed batch carries has at most one of
length, area, volume non-null, the admissible field being fixed by the
record's type — length only for LINE, area only for CIRCLE or
LWPOLYLINE, volume only for 3DSOLID or POLYFACE. -/
theorem quantities_at_most_one_field (es : List NormalizedEntity)
    (rs : List QuantityRecord)
    (h : calculate_quantities es = Except.ok rs) :
    ∀ r ∈ rs,
      (r.type = "LINE" ∧ r.area = none ∧ r.volume = none) ∨
      (r.type = "CIRCLE" ∧ r.length = none ∧ r.volume = none) ∨
      (r.type = "LWPOLYLINE" ∧ r.length = none ∧ r.volume = none) ∨
      ((r.type = "3DSOLID" ∨ r.type = "POLYFACE") ∧
        r.length = none ∧ r.area = none) := by
  induction es generalizing rs with
  | nil =>
    simp [calculate_quantities] at h
    subst h
    simp
  | cons e es ih =>
    rw [calculate_quantities_cons] at h
    cases hd : dispatch_entity e with
    | error u => rw [hd] at h; simp at h
    | ok o =>
      rw [hd] at h
      cases o with
      | none => exact ih rs h
      | some r =>
        cases hq : calculate_quantities es with
        | error u => rw [hq] at h; simp at h
        | ok rs' =>
          rw [hq] at h
          have hrs : r :: rs' = rs := by simpa using h
          subst hrs
          intro f hf
          rcases List.mem_cons.mp hf with rfl | hf'
          · exact dispatch_record_shape e f hd
          · exact ih rs' hq f hf'

/-- Claim C9 witness: the two-entity batch of a radius-2 CIRCLE and an
open LWPOLYLINE. -/
theorem quantities_at_most_one_field_witness :
    (({ type := "CIRCLE", layer := "0", length := none
        area := some (Real.pi * (((2 : ℚ) : ℝ)) ^ 2), volume := none } :
        QuantityRecord).type = "LINE" ∧
      ({ type := "CIRCLE", layer := "0", length := none
         area := some (Real.pi * (((2 : ℚ) : ℝ)) ^ 2), volume := none } :
         QuantityRecord).area = none ∧
      ({ type := "CIRCLE", layer := "0", length := none
         area := some (Real.pi * (((2 : ℚ) : ℝ)) ^ 2), volume := none } :
         QuantityRecord).volume = none) ∨
    (({ type := "CIRCLE", layer := "0", length := none
        area := some (Real.pi * (((2 : ℚ) : ℝ)) ^ 2), volume := none } :
        QuantityRecord).type = "CIRCLE" ∧
      ({ type := "CIRCLE", layer := "0", length := none
         area := some (Real.pi * (((2 : ℚ) : ℝ)) ^ 2), volume := none } :
         QuantityRecord).length = none ∧
      ({ type := "CIRCLE", layer := "0", length := none
         area := some (Real.pi * (((2 : ℚ) : ℝ)) ^ 2), volume := none } :
         QuantityRecord).volume = none) ∨
    (({ type := "CIRCLE", layer := "0", length := none
        area := some (Real.pi * (((2 : ℚ) : ℝ)) ^ 2), volume := none } :
        QuantityRecord).type = "LWPOLYLINE" ∧
      ({ type := "CIRCLE", layer := "0", length := none
         area := some (Real.pi * (((2 : ℚ) : ℝ)) ^ 2), volume := none } :
         QuantityRecord).length = none ∧
      ({ type := "CIRCLE", layer := "0", length := none
         area := some (Real.pi * (((2 : ℚ) : ℝ)) ^ 2), volume := none } :
         QuantityRecord).volume = none) ∨
    ((({ type := "CIRCLE", layer := "0", length := none
         area := some (Real.pi * (((2 : ℚ) : ℝ)) ^ 2), volume := none } :
         QuantityRecord).type = "3DSOLID" ∨
      ({ type := "CIRCLE", layer := "0", length := none
         area := some (Real.pi * (((2 : ℚ) : ℝ)) ^ 2), volume := none } :
         QuantityRecord).type = "POLYFACE") ∧
      ({ type := "CIRCLE", layer := "0", length := none
         area := some (Real.pi * (((2 : ℚ) : ℝ)) ^ 2), volume := none } :
         QuantityRecord).length = none ∧
      ({ type := "CIRCLE", layer := "0", length := none
         area := some (Real.pi * (((2 : ℚ) : ℝ)) ^ 2), volume := none } :
         QuantityRecord).area = none) :=
  quantities_at_most_one_field [circ2, openPoly] _ (by rfl) _
    (List.mem_cons_self _ _)

/-- The Shoelace loop accumulator, rephrased: folding the loop body over
any index list starting from `b` adds the mapped sum to `b`. -/
theorem shoelace_foldl (vs : List Point) (l : List ℕ) : ∀ b : ℚ,
    l.foldl (fun area i =>
      area + edgeCross (vs.getD i default)
        (vs.getD ((i + 1) % vs.length) default)) b =
      b + (l.map (fun i =>
        edgeCross (vs.getD i default)
          (vs.getD ((i + 1) % vs.length) default))).sum := by
  induction l with
  | nil => intro b; simp
  | cons a t ih =>
    intro b
    simp only [List.foldl_cons, List.map_cons, List.sum_cons, ih, add_assoc]

/-- Indexing over `range` with positional `getD` is `zipWith`. -/
theorem map_range_getD_zipWith (l₁ : List Point) : ∀ l₂ : List Point,
    l₁.length = l₂.length →
    (List.range l₁.length).map
      (fun i => edgeCross (l₁.getD i default) (l₂.getD i default)) =
      List.zipWith edgeCross l₁ l₂ := by
  induction l₁ with
  | nil => intro l₂ h; simp
  | cons a t ih =>
    intro l₂ h
    cases l₂ with
    | nil => simp at h
    | cons b t₂ =>
      simp only [List.length_cons] at h
      have h' : t.length = t₂.length := by omega
      simp only [List.length_cons, List.range_succ_eq_map, List.map_cons,
        List.map_map, List.getD_cons_zero, List.zipWith_cons_cons]
      refine congrArg (List.cons _) ?_
      rw [← ih t₂ h']
      apply List.map_congr_left
      intro i hi
      simp [Function.comp, Nat.succ_eq_add_one]

/-- Cyclic successor indexing is indexing into the 1-rotated list. -/
theorem getD_rotate_one (l : List Point) (i : ℕ) (h : i < l.length) :
    (l.rotate 1).getD i default = l.getD ((i + 1) % l.length) default := by
  have h1 : i < (l.rotate 1).length := by simpa using h
  have h0 : 0 < l.length := lt_of_le_of_lt (Nat.zero_le i) h
  have h2 : (i + 1) % l.length < l.length := Nat.mod_lt _ h0
  rw [List.getD_eq_getElem?_getD, List.getD_eq_getElem?_getD,
    List.getElem?_eq_getElem h1, List.getElem?_eq_getElem h2]
  simp [List.getElem_rotate]

/-- The Shoelace sum as a sum over the cyclic edge list. -/
theorem shoelace_eq_zipWith (vs : List Point) :
    shoelace vs = (List.zipWith edgeCross vs (vs.rotate 1)).sum := by
  unfold shoelace
  rw [shoelace_foldl, zero_add,
    ← map_range_getD_zipWith vs (vs.rotate 1) (by simp)]
  apply congrArg
  apply List.map_congr_left
  intro i hi
  rw [getD_rotate_one vs i (List.mem_range.mp hi)]

/-- Rotating both zipped lists rotates the zip. -/
theorem zipWith_rotate (f : Point → Point → ℚ) (l₁ l₂ : List Point)
    (h : l₁.length = l₂.length) (k : ℕ) :
    List.zipWith f (l₁.rotate k) (l₂.rotate k) =
      (List.zipWith f l₁ l₂).rotate k := by
  have e2 : k % l₂.length = k % l₁.length := by rw [h]
  have e3 : (List.zipWith f l₁ l₂).length = l₁.length := by
    simp [List.length_zipWith, h]
  rw [List.rotate_eq_drop_append_take_mod, List.rotate_eq_drop_append_take_mod,
    List.rotate_eq_drop_append_take_mod, e2, e3,
    List.zipWith_append _ _ _ _ _ (by simp [h]),
    List.drop_zipWith, List.take_zipWith]

/-- Reversing both zipped lists reverses the zip. -/
theorem zipWith_reverse_eq (f : Point → Point → ℚ) (l₁ : List Point) :
    ∀ l₂ : List Point, l₁.length = l₂.length →
    List.zipWith f l₁.reverse l₂.reverse = (List.zipWith f l₁ l₂).reverse := by
  induction l₁ with
  | nil =>
    intro l₂ h
    have h2 : l₂ = [] := List.eq_nil_of_length_eq_zero h.symm
    subst h2
    simp
  | cons a t ih =>
    intro l₂ h
    cases l₂ with
    | nil => simp at h
    | cons b t₂ =>
      simp only [List.length_cons] at h
      have h' : t.length = t₂.length := by omega
      simp only [List.reverse_cons, List.zipWith_cons_cons]
      rw [List.zipWith_append _ _ _ _ _ (by simp [h']), ih t₂ h']
      simp

/-- Swapping the zipped lists negates the cross-term sum. -/
theorem sum_zipWith_edgeCross_antisymm (l₁ : List Point) :
    ∀ l₂ : List Point,
    (List.zipWith edgeCross l₁ l₂).sum = -(List.zipWith edgeCross l₂ l₁).sum := by
  induction l₁ with
  | nil => intro l₂; cases l₂ <;> simp
  | cons a t ih =>
    intro l₂
    cases l₂ with
    | nil => simp
    | cons b t₂ =>
      simp only [List.zipWith_cons_cons, List.sum_cons, ih t₂, edgeCross]
      ring

/-- The Shoelace sum is invariant under cyclic rotation of the vertex
list. -/
theorem shoelace_rotate (vs : List Point) (k : ℕ) :
    shoelace (vs.rotate k) = shoelace vs := by
  rw [shoelace_eq_zipWith, shoelace_eq_zipWith, List.rotate_rotate]
  have h1 : vs.rotate (k + 1) = (vs.rotate 1).rotate k := by
    rw [List.rotate_rotate, Nat.add_comm]
  rw [h1, zipWith_rotate edgeCross vs (vs.rotate 1) (by simp) k]
  exact (List.rotate_perm _ k).sum_eq

/-- The Shoelace sum flips sign under reversal of the vertex list. -/
theorem shoelace_reverse (vs : List Point) :
    shoelace vs.reverse = -shoelace vs := by
  rcases eq_or_ne vs [] with rfl | hne
  · simp [shoelace]
  · have h0 : 0 < vs.length := List.length_pos.mpr hne
    have hmod : (vs.length - 1 % vs.length + 1) % vs.length = 0 := by
      obtain ⟨m, hm⟩ := Nat.exists_eq_succ_of_ne_zero (Nat.pos_iff_ne_zero.mp h0)
      rw [hm]
      cases m with
      | zero => norm_num
      | succ m' =>
        have hone : 1 % (m' + 1 + 1) = 1 := Nat.one_mod m'
        rw [hone]
        have harith : m' + 1 + 1 - 1 + 1 = m' + 1 + 1 := by omega
        rw [harith, Nat.mod_self]
    rw [shoelace_eq_zipWith, shoelace_eq_zipWith, List.rotate_reverse,
      zipWith_reverse_eq edgeCross vs _ (by simp), List.sum_reverse,
      sum_zipWith_edgeCross_antisymm]
    have h3 : (vs.rotate (vs.length - 1 % vs.length)).rotate 1 = vs := by
      rw [List.rotate_rotate, ← List.rotate_mod, hmod, List.rotate_zero]
    have h2 := zipWith_rotate edgeCross
      (vs.rotate (vs.length - 1 % vs.length)) vs (by simp) 1
    rw [h3] at h2
    rw [h2, (List.rotate_perm _ 1).sum_eq]

/-- Claim C10: `calculate_polygon_area` is invariant under cyclic
rotation of the vertex list — the Shoelace loop treats the list as a
cycle, so the starting vertex is irrelevant. -/
theorem polygon_area_rotate_invariant (vs : List Point) (k : ℕ) :
    calculate_polygon_area (vs.rotate k) = calculate_polygon_area vs := by
  unfold calculate_polygon_area
  simp only [List.length_rotate]
  split_ifs with h
  · rfl
  · rw [shoelace_rotate]

/-- Claim C5: `calculate_polygon_area` is invariant under reversing the
vertex order (the result is the absolute value of the signed Shoelace
area); in particular the unit-4 square gives 16 in either traversal
direction. -/
theorem polygon_area_reverse_invariant :
    (∀ vs : List Point,
      calculate_polygon_area vs.reverse = calculate_polygon_area vs) ∧
    calculate_polygon_area
      [⟨0, 0, none⟩, ⟨4, 0, none⟩, ⟨4, 4, none⟩, ⟨0, 4, none⟩] = 16 ∧
    calculate_polygon_area
      ([⟨0, 0, none⟩, ⟨4, 0, none⟩, ⟨4, 4, none⟩, ⟨0, 4, none⟩].reverse) = 16 := by
  have habs : ∀ vs : List Point,
      calculate_polygon_area vs.reverse = calculate_polygon_area vs := by
    intro vs
    unfold calculate_polygon_area
    simp only [List.length_reverse]
    split_ifs with h
    · rfl
    · rw [shoelace_reverse, abs_neg]
  have hr : ([⟨0, 0, none⟩, ⟨4, 0, none⟩, ⟨4, 4, none⟩, ⟨0, 4, none⟩] :
      List Point).rotate 1 =
      [⟨4, 0, none⟩, ⟨4, 4, none⟩, ⟨0, 4, none⟩, ⟨0, 0, none⟩] := by
    simp [List.rotate]
  have hsq : shoelace
      [⟨0, 0, none⟩, ⟨4, 0, none⟩, ⟨4, 4, none⟩, ⟨0, 4, none⟩] = 32 := by
    rw [shoelace_eq_zipWith, hr]
    norm_num [edgeCross]
  have harea : calculate_polygon_area
      [⟨0, 0, none⟩, ⟨4, 0, none⟩, ⟨4, 4, none⟩, ⟨0, 4, none⟩] = 16 := by
    unfold calculate_polygon_area
    norm_num [hsq]
  exact ⟨habs, harea, by rw [habs, harea]⟩
